import Mathlib

/-
  Verification development for the chip8-emu repository.

  The repository holds two CHIP-8 interpreter implementations:
    * `Core`   models src/src/emulator/core.rs and src/src/emulator/state.rs
      (struct Chip8, struct Screen);
    * `Engine` models src/chip8_engine/src/emulator.rs (struct Chip8).

  Machine integers are embedded as `Nat` with explicit `% 2 ^ w` where the
  source wraps; fallible code (array indexing, integer conversion, usize
  subtraction, unimplemented arms) is embedded in `Option`, with `none`
  standing for a Rust panic.  Bit operations on opcode words are written in
  their arithmetic form: for every natural `op`,
    (op &&& 0xF000) >>> 12 = op / 4096 % 16,
    (op &&& 0x0F00) >>>  8 = op / 256 % 16,
    (op &&& 0x00F0) >>>  4 = op / 16 % 16,
    op &&& 0x000F          = op % 16,
    op &&& 0x0FFF          = op % 4096,
    op &&& 0x00FF          = op % 256,
  and a byte test `(b &&& (0x80 >> k)) != 0` is `b / 2 ^ (7 - k) % 2 = 1`.
  A Rust `match` over the four opcode nibbles is an ordered set of arms; it
  is embedded as the corresponding if-chain, one condition per arm, in the
  order of the source.
-/

/-! Nibble extraction, shared by both dispatchers.  `nib1` is the highest
nibble of the 16-bit opcode word. -/

def nib1 (op : Nat) : Nat := op / 4096 % 16

def nib2 (op : Nat) : Nat := op / 256 % 16

def nib3 (op : Nat) : Nat := op / 16 % 16

def nib4 (op : Nat) : Nat := op % 16

namespace Core

/-! Constants from src/src/emulator/core.rs. -/

def SCREEN_WIDTH : Nat := 64
def SCREEN_HEIGHT : Nat := 32
def RAM_SIZE : Nat := 4 * 1024
def NUM_V_REGS : Nat := 16
def STACK_SIZE : Nat := 16
def NUM_KEYS : Nat := 16
def START_ADDR : Nat := 0x200

/-- Modelled from the spec: `src/emulator/fontset.rs` (providing `FONTSET`
and `FONTSET_SIZE`, imported by core.rs) is not among the sources.  The spec
fixes a constant 80-byte font table of 16 five-byte glyphs for the digits
0-F; the bytes are taken as the standard CHIP-8 font, identical to
chip8_engine's `FONT_SET`. -/
def FONTSET : List Nat :=
  [0xF0, 0x90, 0x90, 0x90, 0xF0,
   0x20, 0x60, 0x20, 0x20, 0x70,
   0xF0, 0x10, 0xF0, 0x80, 0xF0,
   0xF0, 0x10, 0xF0, 0x10, 0xF0,
   0x90, 0x90, 0xF0, 0x10, 0x10,
   0xF0, 0x80, 0xF0, 0x10, 0xF0,
   0xF0, 0x80, 0xF0, 0x90, 0xF0,
   0xF0, 0x10, 0x20, 0x40, 0x40,
   0xF0, 0x90, 0xF0, 0x90, 0xF0,
   0xF0, 0x90, 0xF0, 0x10, 0xF0,
   0xF0, 0x90, 0xF0, 0x90, 0x90,
   0xE0, 0x90, 0xE0, 0x90, 0xE0,
   0xF0, 0x80, 0x80, 0x80, 0xF0,
   0xE0, 0x90, 0x90, 0x90, 0xE0,
   0xF0, 0x80, 0xF0, 0x80, 0xF0,
   0xF0, 0x80, 0xF0, 0x80, 0x80]

/-- Modelled from the spec: companion constant of `FONTSET` (16 glyphs of
5 bytes each). -/
def FONTSET_SIZE : Nat := 80

/-! Enums from src/src/emulator/state.rs (the commented-out variants of the
source are omitted). -/

inductive ProgramState
  | Running
  | Finished
deriving DecidableEq

inductive TimerState
  | PlaySound
  | None
deriving DecidableEq

/-- `struct Screen { inner: [bool; SCREEN_WIDTH * SCREEN_HEIGHT] }`; the
2048-element array is a function, read and written only through the guarded
accessors below. -/
structure Screen where
  inner : Nat → Bool

def Screen.new : Screen := ⟨fun _ => false⟩

def Screen.reset (_s : Screen) : Screen := ⟨fun _ => false⟩

/-- `coordinate_to_index`: the source computes
`(SCREEN_WIDTH * ix) + iy` for `ix = x % SCREEN_WIDTH`,
`iy = y % SCREEN_HEIGHT`. -/
def Screen.coordinate_to_index (x y : Nat) : Nat :=
  let ix := x % SCREEN_WIDTH
  let iy := y % SCREEN_HEIGHT
  SCREEN_WIDTH * ix + iy

/-- `get_pixel`: `self.inner[idx]` panics (`none`) when the computed index
is outside the 2048-element buffer. -/
def Screen.get_pixel (s : Screen) (x y : Nat) : Option Bool :=
  let idx := Screen.coordinate_to_index x y
  if idx < SCREEN_WIDTH * SCREEN_HEIGHT then some (s.inner idx) else none

/-- `set_pixel`: stores `val` at the computed index and returns
`self.inner[idx] == val` (whether the stored value equals what was already
there); indexing panics (`none`) out of range. -/
def Screen.set_pixel (s : Screen) (x y : Nat) (val : Bool) :
    Option (Screen × Bool) :=
  let idx := Screen.coordinate_to_index x y
  if idx < SCREEN_WIDTH * SCREEN_HEIGHT then
    let res := s.inner idx == val
    some (⟨fun i => if i = idx then val else s.inner i⟩, res)
  else none

/-- `struct Chip8` from core.rs.  The fixed-size arrays are functions:
`memory` is meaningful on `[0, 4096)`, `v_regs` on `[0, 16)`, `stack` on
`[0, 16)`, `keys` on `[0, 16)`. -/
structure Chip8 where
  program_counter : Nat
  memory : Nat → Nat
  v_regs : Nat → Nat
  i_reg : Nat
  stack : Nat → Nat
  stack_pointer : Nat
  screen : Screen
  keys : Nat → Bool
  delay_timer : Nat
  sound_timer : Nat
  _finished : Bool

/-- Indexing `memory[addr]`: panics (`none`) outside `[0, RAM_SIZE)`. -/
def memRead (mem : Nat → Nat) (addr : Nat) : Option Nat :=
  if addr < RAM_SIZE then some (mem addr) else none

/-- Writing `memory[addr] = val`: panics (`none`) outside `[0, RAM_SIZE)`. -/
def memWrite (mem : Nat → Nat) (addr val : Nat) : Option (Nat → Nat) :=
  if addr < RAM_SIZE then
    some (fun a => if a = addr then val else mem a)
  else none

/-- `usize::try_into::<u16>().expect(..)`: panics (`none`) above 0xFFFF. -/
def u16_of_usize (n : Nat) : Option Nat :=
  if n < 65536 then some n else none

/-- `copy_fontset`: `self.memory[..FONTSET_SIZE].copy_from_slice(&FONTSET)`
(the destination range starts at address 0). -/
def Chip8.copy_fontset (m : Chip8) : Chip8 :=
  { m with memory := fun a => if a < FONTSET_SIZE then FONTSET.getD a 0 else m.memory a }

/-- `Chip8::new`. -/
def Chip8.new : Chip8 :=
  Chip8.copy_fontset
    { program_counter := START_ADDR
      memory := fun _ => 0
      v_regs := fun _ => 0
      i_reg := 0
      stack := fun _ => 0
      stack_pointer := 0
      screen := Screen.new
      keys := fun _ => false
      delay_timer := 0
      sound_timer := 0
      _finished := false }

/-- `checked_pc_set`: sets the program counter, then flags the machine as
finished when the new value exceeds `RAM_SIZE - 2`; the boolean is `true`
for `Ok(())` and `false` for `Err(())`. -/
def Chip8.checked_pc_set (m : Chip8) (val : Nat) : Chip8 × Bool :=
  let m1 := { m with program_counter := val }
  if m1.program_counter > RAM_SIZE - 2 then ({ m1 with _finished := true }, false)
  else (m1, true)

def Chip8.checked_pc_increment (m : Chip8) (val : Nat) : Chip8 × Bool :=
  m.checked_pc_set (m.program_counter + val)

/-- `checked_pc_decrement`: the `usize` subtraction underflows (panics,
`none`) when `val` exceeds the program counter. -/
def Chip8.checked_pc_decrement (m : Chip8) (val : Nat) : Option (Chip8 × Bool) :=
  if val ≤ m.program_counter then some (m.checked_pc_set (m.program_counter - val))
  else none

/-- `get_reg`: every call site passes a nibble (< 16) or the literal 0xF,
so the register index is always in bounds. -/
def Chip8.get_reg (m : Chip8) (reg : Nat) : Nat :=
  m.v_regs reg

def Chip8.set_reg (m : Chip8) (reg val : Nat) : Chip8 :=
  { m with v_regs := fun r => if r = reg then val else m.v_regs r }

/-- `incr_reg`: `current_value + val` is an unchecked `u8` addition, which
wraps modulo 256 in release builds. -/
def Chip8.incr_reg (m : Chip8) (reg val : Nat) : Chip8 :=
  m.set_reg reg ((m.get_reg reg + val) % 256)

/-- `stack_push`: `self.stack[self.stack_pointer]` panics (`none`) when the
stack pointer is at or beyond `STACK_SIZE`. -/
def Chip8.stack_push (m : Chip8) (val : Nat) : Option Chip8 :=
  if m.stack_pointer < STACK_SIZE then
    some { m with
            stack := fun i => if i = m.stack_pointer then val else m.stack i
            stack_pointer := m.stack_pointer + 1 }
  else none

/-- `stack_pop`: `self.stack_pointer -= 1` underflows (panics, `none`) on an
empty stack; the subsequent indexing panics when the decremented pointer is
still at or beyond `STACK_SIZE`. -/
def Chip8.stack_pop (m : Chip8) : Option (Chip8 × Nat) :=
  if m.stack_pointer = 0 then none
  else if m.stack_pointer - 1 < STACK_SIZE then
    some ({ m with stack_pointer := m.stack_pointer - 1 },
          m.stack (m.stack_pointer - 1))
  else none

/-- `op_skip_if`: advances the program counter by 2 when
`eq ^ (v_regs[v_reg] != val)` holds. -/
def Chip8.op_skip_if (m : Chip8) (v_reg val : Nat) (eq : Bool) : Chip8 :=
  if Bool.xor eq (m.v_regs v_reg != val) then
    { m with program_counter := m.program_counter + 2 }
  else m

/-- Reading `self.keys[i]`: panics (`none`) outside `[0, NUM_KEYS)`; the
index comes from a full register value, so it can reach 255. -/
def Chip8.key (m : Chip8) (i : Nat) : Option Bool :=
  if i < NUM_KEYS then some (m.keys i) else none

/-- Body of the `(0xD, _, _, _)` arm of `exec_op`: for each of
`sprite_height` rows read `memory[i_reg + y_line]` and write each of its 8
bits into the screen via `set_pixel` (the stored value is the sprite bit
itself), or-ing the returned flags into `pixels_flipped`; afterwards VF is
set to 1 when `pixels_flipped` and to 0 otherwise.  The `u8` index sums
`sprite_x + x_line` and `sprite_y + y_line` wrap modulo 256, and the `u16`
sum `i_reg + y_line` wraps modulo 65536. -/
def Chip8.exec_draw (m : Chip8) (sprite_x sprite_y sprite_height : Nat) :
    Option Chip8 := do
  let st ← (List.range sprite_height).foldlM
    (fun (acc : Chip8 × Bool) (y_line : Nat) => do
      let m0 := acc.1
      let addr := (m0.i_reg + y_line) % 65536
      let pixels ← memRead m0.memory addr
      (List.range 8).foldlM
        (fun (acc2 : Chip8 × Bool) (x_line : Nat) => do
          let current_pixel := pixels / 2 ^ (7 - x_line) % 2 == 1
          let p ← Screen.set_pixel acc2.1.screen
            ((sprite_x + x_line) % 256) ((sprite_y + y_line) % 256) current_pixel
          pure ({ acc2.1 with screen := p.1 }, acc2.2 || p.2))
        (m0, acc.2))
    (m, false)
  pure (if st.2 then st.1.set_reg 0xF 1 else st.1.set_reg 0xF 0)

/-- `exec_op`: the `match (nib1, nib2, nib3, nib4)` of core.rs as an ordered
if-chain; `rand` is the byte produced by `rand::random()` in the `0xC` arm,
passed in to keep the model pure; the final wildcard arm is
`unimplemented!()`, a panic (`none`). -/
def Chip8.exec_op (m : Chip8) (op rand : Nat) : Option Chip8 :=
  if (nib1 op) = 0x0 ∧ (nib2 op) = 0x0 ∧ (nib3 op) = 0x0 ∧ (nib4 op) = 0x0 then
    some m
  else if (nib1 op) = 0x0 ∧ (nib2 op) = 0x0 ∧ (nib3 op) = 0xE ∧ (nib4 op) = 0x0 then
    some { m with screen := Screen.reset m.screen }
  else if (nib1 op) = 0x0 ∧ (nib2 op) = 0x0 ∧ (nib3 op) = 0xE ∧ (nib4 op) = 0xE then
    -- ret
    (m.stack_pop).map fun p => (p.1.checked_pc_set p.2).1
  else if (nib1 op) = 0x1 then
    -- 1NNN: jump to addr NNN
    some (m.checked_pc_set (op % 4096)).1
  else if (nib1 op) = 0x2 then
    -- 2NNN: call procedure at addr NNN
    (u16_of_usize m.program_counter).bind fun pc16 =>
      (m.stack_push pc16).map fun m1 => (m1.checked_pc_set (op % 4096)).1
  else if (nib1 op) = 0x3 then
    -- 3XNN: skip if reg X value == NN
    some (m.op_skip_if (nib2 op) (op % 256) true)
  else if (nib1 op) = 0x4 then
    -- 4XNN: skip if reg X value != NN
    some (m.op_skip_if (nib2 op) (op % 256) false)
  else if (nib1 op) = 0x5 ∧ (nib4 op) = 0x0 then
    -- 5XY0: skip if reg X value == reg Y value
    some (m.op_skip_if (nib2 op) (m.get_reg (nib3 op)) true)
  else if (nib1 op) = 0x9 ∧ (nib4 op) = 0x0 then
    -- 9XY0: skip if reg X value != reg Y value
    some (m.op_skip_if (nib2 op) (m.get_reg (nib3 op)) false)
  else if (nib1 op) = 0x6 then
    -- 6XNN: set value in reg X to NN
    some (m.set_reg (nib2 op) (op % 256))
  else if (nib1 op) = 0x7 then
    -- 7XNN: increment reg X by NN
    some (m.incr_reg (nib2 op) (op % 256))
  else if (nib1 op) = 0x8 ∧ (nib4 op) = 0x0 then
    -- 8XY0: set reg X value to reg Y value
    some (m.set_reg (nib2 op) (m.get_reg (nib3 op)))
  else if (nib1 op) = 0x8 ∧ (nib4 op) = 0x1 then
    -- 8XY1: OR
    some (m.set_reg (nib2 op) (Nat.lor (m.get_reg (nib3 op)) (m.get_reg (nib2 op))))
  else if (nib1 op) = 0x8 ∧ (nib4 op) = 0x2 then
    -- 8XY2: AND
    some (m.set_reg (nib2 op) (Nat.land (m.get_reg (nib3 op)) (m.get_reg (nib2 op))))
  else if (nib1 op) = 0x8 ∧ (nib4 op) = 0x3 then
    -- 8XY3: XOR
    some (m.set_reg (nib2 op) (Nat.xor (m.get_reg (nib3 op)) (m.get_reg (nib2 op))))
  else if (nib1 op) = 0x8 ∧ (nib4 op) = 0x4 then
    -- 8XY4: overflowing add, carry into VF
    let yval := m.get_reg (nib3 op)
    let xval := m.get_reg (nib2 op)
    some (((m.set_reg (nib2 op) ((xval + yval) % 256)).set_reg 0xF
      (if 256 ≤ xval + yval then 1 else 0)))
  else if (nib1 op) = 0x8 ∧ (nib4 op) = 0x5 then
    -- 8XY5: overflowing sub X - Y, VF set if no borrow
    let yval := m.get_reg (nib3 op)
    let xval := m.get_reg (nib2 op)
    some (((m.set_reg (nib2 op) ((xval + 256 - yval) % 256)).set_reg 0xF
      (if xval < yval then 0 else 1)))
  else if (nib1 op) = 0x8 ∧ (nib4 op) = 0x7 then
    -- 8XY7: overflowing sub Y - X, VF set if no borrow
    let yval := m.get_reg (nib3 op)
    let xval := m.get_reg (nib2 op)
    some (((m.set_reg (nib2 op) ((yval + 256 - xval) % 256)).set_reg 0xF
      (if yval < xval then 0 else 1)))
  else if (nib1 op) = 0x8 ∧ (nib4 op) = 0x6 then
    -- 8XY6: shift right, VF is the dropped bit
    let value := m.get_reg (nib2 op)
    some ((m.set_reg (nib2 op) (value / 2)).set_reg 0xF (value % 2))
  else if (nib1 op) = 0x8 ∧ (nib4 op) = 0xE then
    -- 8XYE: shift left (u8, high bit discarded), VF is the dropped bit
    let value := m.get_reg (nib2 op)
    some ((m.set_reg (nib2 op) (value * 2 % 256)).set_reg 0xF (value / 128 % 2))
  else if (nib1 op) = 0xA then
    -- ANNN: set reg I to NNN
    some { m with i_reg := op % 4096 }
  else if (nib1 op) = 0xB then
    -- BNNN: jump to V0 + NNN
    some (m.checked_pc_set (m.get_reg 0 + op % 4096)).1
  else if (nib1 op) = 0xC then
    -- CXNN: set X to random AND NN
    some (m.set_reg (nib2 op) (Nat.land (rand % 256) (op % 256)))
  else if (nib1 op) = 0xD then
    -- DXYN: draw sprite at I with height N to coordinates X, Y
    m.exec_draw (m.get_reg (nib2 op)) (m.get_reg (nib3 op)) (nib4 op)
  else if (nib1 op) = 0xE ∧ (nib3 op) = 0x9 ∧ (nib4 op) = 0xE then
    -- EX9E: skip if key id in VX is pressed
    (m.key (m.get_reg (nib2 op))).map fun pressed =>
      if pressed then (m.checked_pc_increment 2).1 else m
  else if (nib1 op) = 0xE ∧ (nib3 op) = 0xA ∧ (nib4 op) = 0x1 then
    -- EXA1: skip if key id in VX is NOT pressed
    (m.key (m.get_reg (nib2 op))).map fun pressed =>
      if pressed then m else (m.checked_pc_increment 2).1
  else if (nib1 op) = 0xF ∧ (nib3 op) = 0x0 ∧ (nib4 op) = 0xA then
    -- FX0A: wait for keypress (first pressed key id, else rewind PC by 2)
    match (List.range 16).find? (fun i => m.keys i) with
    | some id => some (m.set_reg (nib2 op) id)
    | none => (m.checked_pc_decrement 2).map (fun p => p.1)
  else if (nib1 op) = 0xF ∧ (nib3 op) = 0x0 ∧ (nib4 op) = 0x7 then
    -- FX07: set VX to value in DT
    some (m.set_reg (nib2 op) m.delay_timer)
  else if (nib1 op) = 0xF ∧ (nib3 op) = 0x1 ∧ (nib4 op) = 0x5 then
    -- FX15: set DT to value in VX
    some { m with delay_timer := m.get_reg (nib2 op) }
  else if (nib1 op) = 0xF ∧ (nib3 op) = 0x1 ∧ (nib4 op) = 0x8 then
    -- FX18: set ST to value in VX
    some { m with sound_timer := m.get_reg (nib2 op) }
  else if (nib1 op) = 0xF ∧ (nib3 op) = 0x1 ∧ (nib4 op) = 0xE then
    -- FX1E: wrapping add VX to I
    some { m with i_reg := (m.i_reg + m.get_reg (nib2 op)) % 65536 }
  else if (nib1 op) = 0xF ∧ (nib3 op) = 0x2 ∧ (nib4 op) = 0x9 then
    -- FX29: set I to font address of character in VX
    some { m with i_reg := m.get_reg (nib2 op) * 5 }
  else if (nib1 op) = 0xF ∧ (nib3 op) = 0x3 ∧ (nib4 op) = 0x3 then
    -- FX33: three BCD writes; each one targets memory[i_reg]
    let vx := m.get_reg (nib2 op)
    (memWrite m.memory m.i_reg (vx / 100)).bind fun mem1 =>
      (memWrite mem1 m.i_reg (vx / 10 % 10)).bind fun mem2 =>
        (memWrite mem2 m.i_reg (vx % 10)).map fun mem3 =>
          { m with memory := mem3 }
  else if (nib1 op) = 0xF ∧ (nib3 op) = 0x5 ∧ (nib4 op) = 0x5 then
    -- FX55: store V0..=VX into memory at I
    ((List.range ((nib2 op) + 1)).foldlM
      (fun (mem : Nat → Nat) idx => memWrite mem (m.i_reg + idx) (m.v_regs idx))
      m.memory).map fun mem => { m with memory := mem }
  else if (nib1 op) = 0xF ∧ (nib3 op) = 0x6 ∧ (nib4 op) = 0x5 then
    -- FX65: load V0..=VX from memory at I
    ((List.range ((nib2 op) + 1)).foldlM
      (fun (regs : Nat → Nat) idx =>
        (memRead m.memory (m.i_reg + idx)).map fun b =>
          fun r => if r = idx then b else regs r)
      m.v_regs).map fun regs => { m with v_regs := regs }
  else
    none

/-- `knownOp op` is `true` exactly when `op` matches one of the non-wildcard
arms of `exec_op`; the chain of conditions is identical to `exec_op`. -/
def knownOp (op : Nat) : Bool :=
  if (nib1 op) = 0x0 ∧ (nib2 op) = 0x0 ∧ (nib3 op) = 0x0 ∧ (nib4 op) = 0x0 then true
  else if (nib1 op) = 0x0 ∧ (nib2 op) = 0x0 ∧ (nib3 op) = 0xE ∧ (nib4 op) = 0x0 then true
  else if (nib1 op) = 0x0 ∧ (nib2 op) = 0x0 ∧ (nib3 op) = 0xE ∧ (nib4 op) = 0xE then true
  else if (nib1 op) = 0x1 then true
  else if (nib1 op) = 0x2 then true
  else if (nib1 op) = 0x3 then true
  else if (nib1 op) = 0x4 then true
  else if (nib1 op) = 0x5 ∧ (nib4 op) = 0x0 then true
  else if (nib1 op) = 0x9 ∧ (nib4 op) = 0x0 then true
  else if (nib1 op) = 0x6 then true
  else if (nib1 op) = 0x7 then true
  else if (nib1 op) = 0x8 ∧ (nib4 op) = 0x0 then true
  else if (nib1 op) = 0x8 ∧ (nib4 op) = 0x1 then true
  else if (nib1 op) = 0x8 ∧ (nib4 op) = 0x2 then true
  else if (nib1 op) = 0x8 ∧ (nib4 op) = 0x3 then true
  else if (nib1 op) = 0x8 ∧ (nib4 op) = 0x4 then true
  else if (nib1 op) = 0x8 ∧ (nib4 op) = 0x5 then true
  else if (nib1 op) = 0x8 ∧ (nib4 op) = 0x7 then true
  else if (nib1 op) = 0x8 ∧ (nib4 op) = 0x6 then true
  else if (nib1 op) = 0x8 ∧ (nib4 op) = 0xE then true
  else if (nib1 op) = 0xA then true
  else if (nib1 op) = 0xB then true
  else if (nib1 op) = 0xC then true
  else if (nib1 op) = 0xD then true
  else if (nib1 op) = 0xE ∧ (nib3 op) = 0x9 ∧ (nib4 op) = 0xE then true
  else if (nib1 op) = 0xE ∧ (nib3 op) = 0xA ∧ (nib4 op) = 0x1 then true
  else if (nib1 op) = 0xF ∧ (nib3 op) = 0x0 ∧ (nib4 op) = 0xA then true
  else if (nib1 op) = 0xF ∧ (nib3 op) = 0x0 ∧ (nib4 op) = 0x7 then true
  else if (nib1 op) = 0xF ∧ (nib3 op) = 0x1 ∧ (nib4 op) = 0x5 then true
  else if (nib1 op) = 0xF ∧ (nib3 op) = 0x1 ∧ (nib4 op) = 0x8 then true
  else if (nib1 op) = 0xF ∧ (nib3 op) = 0x1 ∧ (nib4 op) = 0xE then true
  else if (nib1 op) = 0xF ∧ (nib3 op) = 0x2 ∧ (nib4 op) = 0x9 then true
  else if (nib1 op) = 0xF ∧ (nib3 op) = 0x3 ∧ (nib4 op) = 0x3 then true
  else if (nib1 op) = 0xF ∧ (nib3 op) = 0x5 ∧ (nib4 op) = 0x5 then true
  else if (nib1 op) = 0xF ∧ (nib3 op) = 0x6 ∧ (nib4 op) = 0x5 then true
  else false

/-- `tick`: one fetch-execute step; a panic anywhere inside is `none`.  The
opcode is `higher << 8 | lower` on the two fetched bytes, written
arithmetically; after `exec_op` the program counter is unconditionally
incremented by 2, and the `Err` case of that increment reports
`Finished`. -/
def Chip8.tick (m : Chip8) (rand : Nat) : Option (Chip8 × ProgramState) :=
  if m._finished = true ∨ m.program_counter > RAM_SIZE - 2 then
    some (m, ProgramState.Finished)
  else
    (memRead m.memory m.program_counter).bind fun higher =>
      (memRead m.memory (m.program_counter + 1)).bind fun lower =>
        (m.exec_op (higher * 256 + lower) rand).bind fun m1 =>
          let res := m1.checked_pc_increment 2
          some (res.1, if res.2 then ProgramState.Running else ProgramState.Finished)

/-- `tick_timers`: the sound branch returns `PlaySound` before decrementing
when the counter is exactly 1. -/
def Chip8.tick_timers (m : Chip8) : Chip8 × TimerState :=
  let m1 := if m.delay_timer > 0 then { m with delay_timer := m.delay_timer - 1 } else m
  if m1.sound_timer > 0 then
    if m1.sound_timer = 1 then (m1, TimerState.PlaySound)
    else ({ m1 with sound_timer := m1.sound_timer - 1 }, TimerState.None)
  else (m1, TimerState.None)

end Core

namespace Engine

/-! Constants from src/chip8_engine/src/emulator.rs. -/

def SCREEN_WIDTH : Nat := 64
def SCREEN_HEIGHT : Nat := 32
def RAM_SIZE : Nat := 4096
def NUM_REGS : Nat := 16
def NUM_STACK_FRAMES : Nat := 16
def NUM_INPUT_KEYS : Nat := 16
def PC_START : Nat := 0x200

def FONT_BEGIN_OFFSET : Nat := 0x50
def FONT_NEXT_OFFSET : Nat := 0x5

def FONT_SET : List Nat :=
  [0xF0, 0x90, 0x90, 0x90, 0xF0,
   0x20, 0x60, 0x20, 0x20, 0x70,
   0xF0, 0x10, 0xF0, 0x80, 0xF0,
   0xF0, 0x10, 0xF0, 0x10, 0xF0,
   0x90, 0x90, 0xF0, 0x10, 0x10,
   0xF0, 0x80, 0xF0, 0x10, 0xF0,
   0xF0, 0x80, 0xF0, 0x90, 0xF0,
   0xF0, 0x10, 0x20, 0x40, 0x40,
   0xF0, 0x90, 0xF0, 0x90, 0xF0,
   0xF0, 0x90, 0xF0, 0x10, 0xF0,
   0xF0, 0x90, 0xF0, 0x90, 0x90,
   0xE0, 0x90, 0xE0, 0x90, 0xE0,
   0xF0, 0x80, 0x80, 0x80, 0xF0,
   0xE0, 0x90, 0x90, 0x90, 0xE0,
   0xF0, 0x80, 0xF0, 0x80, 0xF0,
   0xF0, 0x80, 0xF0, 0x80, 0x80]

/-- `struct Chip8` from chip8_engine; the arrays are functions (`memory` on
`[0, 4096)`, `screen` on `[0, 2048)`, registers, stack and input on
`[0, 16)`). -/
structure Chip8 where
  memory : Nat → Nat
  screen : Nat → Bool
  program_counter : Nat
  v_regs : Nat → Nat
  i_reg : Nat
  stack_ptr : Nat
  stack : Nat → Nat
  delay_timer : Nat
  sound_timer : Nat
  input : Nat → Bool

/-- `load_mem`: `memory[addr..addr+len].copy_from_slice(data)`; the slice
panics (`none`) when the range leaves the 4096-byte memory. -/
def Chip8.load_mem (m : Chip8) (addr : Nat) (data : List Nat) : Option Chip8 :=
  if addr + data.length ≤ RAM_SIZE then
    some { m with memory := fun a =>
            if addr ≤ a ∧ a < addr + data.length then data.getD (a - addr) 0
            else m.memory a }
  else none

/-- `Chip8::new`: zeroed machine, then the font is copied to
`FONT_BEGIN_OFFSET` (that copy is in range, so the result is `some`). -/
def Chip8.new : Option Chip8 :=
  Chip8.load_mem
    { memory := fun _ => 0
      screen := fun _ => false
      program_counter := PC_START
      v_regs := fun _ => 0
      i_reg := 0
      stack_ptr := 0
      stack := fun _ => 0
      delay_timer := 0
      sound_timer := 0
      input := fun _ => false }
    FONT_BEGIN_OFFSET FONT_SET

def Chip8.load_rom (m : Chip8) (data : List Nat) : Option Chip8 :=
  m.load_mem PC_START data

/-- `get_ram`: panics (`none`) outside `[0, RAM_SIZE)`. -/
def Chip8.get_ram (m : Chip8) (addr : Nat) : Option Nat :=
  if addr < RAM_SIZE then some (m.memory addr) else none

/-- `get_reg`: every call site passes a nibble, so the index is in bounds. -/
def Chip8.get_reg (m : Chip8) (reg : Nat) : Nat :=
  m.v_regs reg

def Chip8.set_reg (m : Chip8) (reg value : Nat) : Chip8 :=
  { m with v_regs := fun r => if r = reg then value else m.v_regs r }

def Chip8.set_carry_reg (m : Chip8) : Chip8 :=
  { m with v_regs := fun r => if r = 0xF then 1 else m.v_regs r }

def Chip8.clear_carry_reg (m : Chip8) : Chip8 :=
  { m with v_regs := fun r => if r = 0xF then 0 else m.v_regs r }

def Chip8.set_pc (m : Chip8) (c : Nat) : Chip8 :=
  { m with program_counter := c }

def Chip8.incr_pc (m : Chip8) : Chip8 :=
  { m with program_counter := m.program_counter + 2 }

/-- `stack_push`: indexing panics (`none`) when the stack pointer is at or
beyond `NUM_STACK_FRAMES`. -/
def Chip8.stack_push (m : Chip8) (val : Nat) : Option Chip8 :=
  if m.stack_ptr < NUM_STACK_FRAMES then
    some { m with
            stack := fun i => if i = m.stack_ptr then val else m.stack i
            stack_ptr := m.stack_ptr + 1 }
  else none

/-- `stack_pop`: `self.stack_ptr -= 1` underflows (panics, `none`) on an
empty stack. -/
def Chip8.stack_pop (m : Chip8) : Option (Chip8 × Nat) :=
  if m.stack_ptr = 0 then none
  else if m.stack_ptr - 1 < NUM_STACK_FRAMES then
    some ({ m with stack_ptr := m.stack_ptr - 1 }, m.stack (m.stack_ptr - 1))
  else none

/-- `register_key`: `input[key as usize]` panics (`none`) for key ≥ 16. -/
def Chip8.register_key (m : Chip8) (key : Nat) (is_pressed : Bool) : Option Chip8 :=
  if key < NUM_INPUT_KEYS then
    some { m with input := fun k => if k = key then is_pressed else m.input k }
  else none

/-- `tick_timers`: both counters decrement once when positive. -/
def Chip8.tick_timers (m : Chip8) : Chip8 :=
  let m1 := if m.delay_timer > 0 then { m with delay_timer := m.delay_timer - 1 } else m
  if m1.sound_timer > 0 then { m1 with sound_timer := m1.sound_timer - 1 } else m1

def Chip8.op_clear_screen (m : Chip8) : Chip8 :=
  { m with screen := fun _ => false }

def Chip8.op_jump (m : Chip8) (addr : Nat) : Chip8 :=
  m.set_pc addr

def Chip8.op_jump_offset (m : Chip8) (addr : Nat) : Chip8 :=
  m.set_pc (addr + m.get_reg 0)

/-- `op_call`: the `try_into::<u16>` on the program counter panics (`none`)
above 0xFFFF. -/
def Chip8.op_call (m : Chip8) (addr : Nat) : Option Chip8 :=
  if m.program_counter < 65536 then
    (m.stack_push m.program_counter).map fun m1 => m1.set_pc addr
  else none

def Chip8.op_ret (m : Chip8) : Option Chip8 :=
  (m.stack_pop).map fun p => p.1.set_pc p.2

def Chip8.op_skip_eq (m : Chip8) (register value : Nat) : Chip8 :=
  if m.get_reg register = value then m.incr_pc else m

def Chip8.op_skip_neq (m : Chip8) (register value : Nat) : Chip8 :=
  if m.get_reg register ≠ value then m.incr_pc else m

def Chip8.op_skip_reg_eq (m : Chip8) (reg_x reg_y : Nat) : Chip8 :=
  if m.get_reg reg_x = m.get_reg reg_y then m.incr_pc else m

def Chip8.op_skip_reg_neq (m : Chip8) (reg_x reg_y : Nat) : Chip8 :=
  if m.get_reg reg_x ≠ m.get_reg reg_y then m.incr_pc else m

def Chip8.op_set_regs (m : Chip8) (reg_x reg_y : Nat) : Chip8 :=
  m.set_reg reg_x (m.get_reg reg_y)

def Chip8.op_mov_i (m : Chip8) (addr : Nat) : Chip8 :=
  { m with i_reg := addr }

def Chip8.op_set_val (m : Chip8) (reg val : Nat) : Chip8 :=
  m.set_reg reg val

/-- `op_incr_reg`: unchecked `u8` addition, wraps modulo 256 in release
builds. -/
def Chip8.op_incr_reg (m : Chip8) (reg val : Nat) : Chip8 :=
  m.set_reg reg ((m.get_reg reg + val) % 256)

def Chip8.op_or (m : Chip8) (reg_x reg_y : Nat) : Chip8 :=
  m.set_reg reg_x (Nat.lor (m.get_reg reg_x) (m.get_reg reg_y))

def Chip8.op_and (m : Chip8) (reg_x reg_y : Nat) : Chip8 :=
  m.set_reg reg_x (Nat.land (m.get_reg reg_x) (m.get_reg reg_y))

def Chip8.op_xor (m : Chip8) (reg_x reg_y : Nat) : Chip8 :=
  m.set_reg reg_x (Nat.xor (m.get_reg reg_x) (m.get_reg reg_y))

/-- `op_add`: clear VF, then `checked_add`; on overflow set VF and store the
wrapped sum. -/
def Chip8.op_add (m : Chip8) (reg_x reg_y : Nat) : Chip8 :=
  let m0 := m.clear_carry_reg
  let x := m0.get_reg reg_x
  let y := m0.get_reg reg_y
  if x + y < 256 then m0.set_reg reg_x (x + y)
  else (m0.set_carry_reg).set_reg reg_x ((x + y) % 256)

/-- `op_sub`: set VF, then clear it on borrow and store the wrapped
difference. -/
def Chip8.op_sub (m : Chip8) (reg_minuend reg_subtrahend reg_result_store : Nat) :
    Chip8 :=
  let m0 := m.set_carry_reg
  let x := m0.get_reg reg_minuend
  let y := m0.get_reg reg_subtrahend
  if y > x then (m0.clear_carry_reg).set_reg reg_result_store ((x + 256 - y) % 256)
  else m0.set_reg reg_result_store (x - y)

/-- `op_shf`: VF receives the dropped bit chosen by the sign of `shr_by`;
the store is `y.wrapping_shr(shr_by as u32)`, whose shift amount is the
two's-complement image of `shr_by` masked to its low 3 bits (so `-1` shifts
right by 7). -/
def Chip8.op_shf (m : Chip8) (reg_x reg_y : Nat) (shr_by : Int) : Chip8 :=
  let y := m.get_reg reg_y
  let m1 :=
    if shr_by > 0 then
      let m0 := m.clear_carry_reg
      if y % 2 = 1 then m0.set_carry_reg else m0
    else if shr_by < 0 then
      let m0 := m.clear_carry_reg
      if y / 128 % 2 = 1 then m0.set_carry_reg else m0
    else m
  let amt := (if 0 ≤ shr_by then shr_by.toNat else 4294967296 - shr_by.natAbs) % 8
  m1.set_reg reg_x (y / 2 ^ amt)

/-- `op_draw`: XOR-blit with per-pixel wrap; the `u8` coordinate sums wrap
modulo 256 before the modulo by the screen dimensions, and the `u16` row
address wraps modulo 65536 before the (panicking, `none`) memory read. -/
def Chip8.op_draw (m : Chip8) (x_reg y_reg n : Nat) : Option Chip8 :=
  (List.range n).foldlM
    (fun (acc : Chip8) (sprite_height : Nat) => do
      let y := (acc.get_reg y_reg + sprite_height) % 256 % SCREEN_HEIGHT
      let addr := (acc.i_reg + sprite_height) % 65536
      let row ← acc.get_ram addr
      (List.range 8).foldlM
        (fun (acc2 : Chip8) (x_offset : Nat) =>
          let x := (acc2.get_reg x_reg + x_offset) % 256 % SCREEN_WIDTH
          if row / 2 ^ (7 - x_offset) % 2 = 1 then
            let idx := x + SCREEN_WIDTH * y
            let acc3 := if acc2.screen idx then acc2.set_carry_reg else acc2
            pure { acc3 with
                    screen := fun i => if i = idx then !acc3.screen i else acc3.screen i }
          else pure acc2)
        acc)
    m.clear_carry_reg

/-- `ld_font_addr_i`: I := FONT_BEGIN_OFFSET + 5 * (VX & 0xF). -/
def Chip8.ld_font_addr_i (m : Chip8) (x_reg : Nat) : Chip8 :=
  let val := m.get_reg x_reg % 16
  { m with i_reg := FONT_BEGIN_OFFSET + val * FONT_NEXT_OFFSET }

/-- `execute_instruction`: the dispatch `match` of chip8_engine as an
ordered if-chain; `todo!()` arms panic (`none`); the wildcard arm only
prints `Invalid opcode` to stderr, so the machine state is returned
unchanged. -/
def Chip8.execute_instruction (m : Chip8) (opcode : Nat) : Option Chip8 :=
  if (nib1 opcode) = 0x0 ∧ (nib2 opcode) = 0x0 ∧ (nib3 opcode) = 0xE ∧ (nib4 opcode) = 0x0 then
    some m.op_clear_screen
  else if (nib1 opcode) = 0x0 ∧ (nib2 opcode) = 0x0 ∧ (nib3 opcode) = 0xE ∧ (nib4 opcode) = 0xE then
    m.op_ret
  else if (nib1 opcode) = 0x1 then
    some (m.op_jump (opcode % 4096))
  else if (nib1 opcode) = 0xB then
    some (m.op_jump_offset (opcode % 4096))
  else if (nib1 opcode) = 0x2 then
    m.op_call (opcode % 4096)
  else if (nib1 opcode) = 0x3 then
    some (m.op_skip_eq (nib2 opcode) (opcode % 256))
  else if (nib1 opcode) = 0x4 then
    some (m.op_skip_neq (nib2 opcode) (opcode % 256))
  else if (nib1 opcode) = 0x5 ∧ (nib4 opcode) = 0x0 then
    some (m.op_skip_reg_eq (nib2 opcode) (nib3 opcode))
  else if (nib1 opcode) = 0x9 ∧ (nib4 opcode) = 0x0 then
    some (m.op_skip_reg_neq (nib2 opcode) (nib3 opcode))
  else if (nib1 opcode) = 0x6 then
    some (m.op_set_val (nib2 opcode) (opcode % 256))
  else if (nib1 opcode) = 0x7 then
    some (m.op_incr_reg (nib2 opcode) (opcode % 256))
  else if (nib1 opcode) = 0x8 ∧ (nib4 opcode) = 0x0 then
    some (m.op_set_regs (nib2 opcode) (nib3 opcode))
  else if (nib1 opcode) = 0x8 ∧ (nib4 opcode) = 0x1 then
    some (m.op_or (nib2 opcode) (nib3 opcode))
  else if (nib1 opcode) = 0x8 ∧ (nib4 opcode) = 0x2 then
    some (m.op_and (nib2 opcode) (nib3 opcode))
  else if (nib1 opcode) = 0x8 ∧ (nib4 opcode) = 0x3 then
    some (m.op_xor (nib2 opcode) (nib3 opcode))
  else if (nib1 opcode) = 0x8 ∧ (nib4 opcode) = 0x4 then
    some (m.op_add (nib2 opcode) (nib3 opcode))
  else if (nib1 opcode) = 0x8 ∧ (nib4 opcode) = 0x5 then
    some (m.op_sub (nib2 opcode) (nib3 opcode) (nib2 opcode))
  else if (nib1 opcode) = 0x8 ∧ (nib4 opcode) = 0x7 then
    some (m.op_sub (nib3 opcode) (nib2 opcode) (nib2 opcode))
  else if (nib1 opcode) = 0x8 ∧ (nib4 opcode) = 0x6 then
    some (m.op_shf (nib2 opcode) (nib3 opcode) 1)
  else if (nib1 opcode) = 0x8 ∧ (nib4 opcode) = 0xE then
    some (m.op_shf (nib2 opcode) (nib3 opcode) (-1))
  else if (nib1 opcode) = 0xA then
    some (m.op_mov_i (opcode % 4096))
  else if (nib1 opcode) = 0xC then
    none -- todo!() rand
  else if (nib1 opcode) = 0xD then
    m.op_draw (nib2 opcode) (nib3 opcode) (nib4 opcode)
  else if (nib1 opcode) = 0xE ∧ (nib3 opcode) = 0x9 ∧ (nib4 opcode) = 0xE then
    none -- todo!() skip if key
  else if (nib1 opcode) = 0xE ∧ (nib3 opcode) = 0xA ∧ (nib4 opcode) = 0x1 then
    none -- todo!() skip ifn key
  else if (nib1 opcode) = 0xF ∧ (nib3 opcode) = 0x0 ∧ (nib4 opcode) = 0xA then
    none -- todo!() wait key
  else if (nib1 opcode) = 0xF ∧ (nib3 opcode) = 0x0 ∧ (nib4 opcode) = 0x7 then
    none -- todo!() get delay timer
  else if (nib1 opcode) = 0xF ∧ (nib3 opcode) = 0x1 ∧ (nib4 opcode) = 0x5 then
    none -- todo!() set delay timer
  else if (nib1 opcode) = 0xF ∧ (nib3 opcode) = 0x1 ∧ (nib4 opcode) = 0x8 then
    none -- todo!() set sound timer
  else if (nib1 opcode) = 0xF ∧ (nib3 opcode) = 0x1 ∧ (nib4 opcode) = 0xE then
    none -- todo!() addi
  else if (nib1 opcode) = 0xF ∧ (nib3 opcode) = 0x2 ∧ (nib4 opcode) = 0x9 then
    some (m.ld_font_addr_i (nib2 opcode))
  else if (nib1 opcode) = 0xF ∧ (nib3 opcode) = 0x5 ∧ (nib4 opcode) = 0x5 then
    none -- todo!() store regs
  else if (nib1 opcode) = 0xF ∧ (nib3 opcode) = 0x6 ∧ (nib4 opcode) = 0x5 then
    none -- todo!() ld regs
  else
    some m

/-- `knownOp opcode` is `true` exactly when `opcode` matches one of the
non-wildcard arms of `execute_instruction` (the `todo!()` arms are matched
patterns); the chain of conditions is identical to `execute_instruction`. -/
def knownOp (opcode : Nat) : Bool :=
  if (nib1 opcode) = 0x0 ∧ (nib2 opcode) = 0x0 ∧ (nib3 opcode) = 0xE ∧ (nib4 opcode) = 0x0 then true
  else if (nib1 opcode) = 0x0 ∧ (nib2 opcode) = 0x0 ∧ (nib3 opcode) = 0xE ∧ (nib4 opcode) = 0xE then true
  else if (nib1 opcode) = 0x1 then true
  else if (nib1 opcode) = 0xB then true
  else if (nib1 opcode) = 0x2 then true
  else if (nib1 opcode) = 0x3 then true
  else if (nib1 opcode) = 0x4 then true
  else if (nib1 opcode) = 0x5 ∧ (nib4 opcode) = 0x0 then true
  else if (nib1 opcode) = 0x9 ∧ (nib4 opcode) = 0x0 then true
  else if (nib1 opcode) = 0x6 then true
  else if (nib1 opcode) = 0x7 then true
  else if (nib1 opcode) = 0x8 ∧ (nib4 opcode) = 0x0 then true
  else if (nib1 opcode) = 0x8 ∧ (nib4 opcode) = 0x1 then true
  else if (nib1 opcode) = 0x8 ∧ (nib4 opcode) = 0x2 then true
  else if (nib1 opcode) = 0x8 ∧ (nib4 opcode) = 0x3 then true
  else if (nib1 opcode) = 0x8 ∧ (nib4 opcode) = 0x4 then true
  else if (nib1 opcode) = 0x8 ∧ (nib4 opcode) = 0x5 then true
  else if (nib1 opcode) = 0x8 ∧ (nib4 opcode) = 0x7 then true
  else if (nib1 opcode) = 0x8 ∧ (nib4 opcode) = 0x6 then true
  else if (nib1 opcode) = 0x8 ∧ (nib4 opcode) = 0xE then true
  else if (nib1 opcode) = 0xA then true
  else if (nib1 opcode) = 0xC then true
  else if (nib1 opcode) = 0xD then true
  else if (nib1 opcode) = 0xE ∧ (nib3 opcode) = 0x9 ∧ (nib4 opcode) = 0xE then true
  else if (nib1 opcode) = 0xE ∧ (nib3 opcode) = 0xA ∧ (nib4 opcode) = 0x1 then true
  else if (nib1 opcode) = 0xF ∧ (nib3 opcode) = 0x0 ∧ (nib4 opcode) = 0xA then true
  else if (nib1 opcode) = 0xF ∧ (nib3 opcode) = 0x0 ∧ (nib4 opcode) = 0x7 then true
  else if (nib1 opcode) = 0xF ∧ (nib3 opcode) = 0x1 ∧ (nib4 opcode) = 0x5 then true
  else if (nib1 opcode) = 0xF ∧ (nib3 opcode) = 0x1 ∧ (nib4 opcode) = 0x8 then true
  else if (nib1 opcode) = 0xF ∧ (nib3 opcode) = 0x1 ∧ (nib4 opcode) = 0xE then true
  else if (nib1 opcode) = 0xF ∧ (nib3 opcode) = 0x2 ∧ (nib4 opcode) = 0x9 then true
  else if (nib1 opcode) = 0xF ∧ (nib3 opcode) = 0x5 ∧ (nib4 opcode) = 0x5 then true
  else if (nib1 opcode) = 0xF ∧ (nib3 opcode) = 0x6 ∧ (nib4 opcode) = 0x5 then true
  else false

/-- `fetch_next_instruction`: reads the two opcode bytes (panicking reads)
and advances the program counter by 2. -/
def Chip8.fetch_next_instruction (m : Chip8) : Option (Chip8 × Nat) := do
  let hi ← m.get_ram m.program_counter
  let lo ← m.get_ram (m.program_counter + 1)
  pure (m.incr_pc, hi * 256 + lo)

/-- `run_cycle`: fetch, execute, then tick the timers. -/
def Chip8.run_cycle (m : Chip8) : Option Chip8 := do
  let p ← m.fetch_next_instruction
  let m2 ← p.1.execute_instruction p.2
  pure m2.tick_timers

end Engine

/-! Concrete machine states used to evaluate the interpreters on specific
inputs.  `memStore2` overrides two bytes of a memory image, the way a
two-byte opcode is placed into RAM. -/

def memStore2 (base : Nat → Nat) (a0 b0 a1 b1 : Nat) : Nat → Nat :=
  fun a => if a = a0 then b0 else if a = a1 then b1 else base a

/-- Fresh machine with V0 = 32 and I = 0x300 (pointing at zeroed RAM). -/
def drawX32Machine : Core.Chip8 :=
  { Core.Chip8.new with
      v_regs := fun r => if r = 0 then 32 else 0
      i_reg := 0x300 }

/-- Fresh machine with the pixel at (0, 0) switched on and I = 0x300
(pointing at zeroed RAM, i.e. an all-zero sprite row). -/
def litPixelMachine : Core.Chip8 :=
  { Core.Chip8.new with
      i_reg := 0x300
      screen := ⟨fun i => i == 0⟩ }

/-- Fresh machine with I = 0x300 (all-zero sprite row, blank screen). -/
def blankDrawMachine : Core.Chip8 := { Core.Chip8.new with i_reg := 0x300 }

/-- Fresh machine with V0 = 123 and I = 0x300. -/
def bcdMachine : Core.Chip8 :=
  { Core.Chip8.new with
      i_reg := 0x300
      v_regs := fun r => if r = 0 then 123 else 0 }

/-- Fresh machine whose first instruction is 0x1300 (jump to 0x300). -/
def jumpMachine : Core.Chip8 :=
  { Core.Chip8.new with
      memory := memStore2 Core.Chip8.new.memory 0x200 0x13 0x201 0x00 }

/-- Fresh machine with V0 = 5 whose first instruction is 0xB300
(jump to 0x300 + V0). -/
def jumpV0Machine : Core.Chip8 :=
  { Core.Chip8.new with
      memory := memStore2 Core.Chip8.new.memory 0x200 0xB3 0x201 0x00
      v_regs := fun r => if r = 0 then 5 else 0 }

/-- Machine with a full stack (stack pointer 16) about to execute the call
0x2300. -/
def fullStackCallMachine : Core.Chip8 :=
  { Core.Chip8.new with
      stack_pointer := 16
      memory := memStore2 Core.Chip8.new.memory 0x200 0x23 0x201 0x00 }

/-- Fresh machine (stack pointer 0) about to execute the return 0x00EE. -/
def emptyStackRetMachine : Core.Chip8 :=
  { Core.Chip8.new with
      memory := memStore2 Core.Chip8.new.memory 0x200 0x00 0x201 0xEE }

/-- Machine with a full stack used to witness the call-overflow panic at
opcode 0x2345. -/
def fullStackMachine : Core.Chip8 := { Core.Chip8.new with stack_pointer := 16 }

/-- A concrete zeroed chip8_engine machine. -/
def engineZero : Engine.Chip8 :=
  { memory := fun _ => 0
    screen := fun _ => false
    program_counter := 0x200
    v_regs := fun _ => 0
    i_reg := 0
    stack_ptr := 0
    stack := fun _ => 0
    delay_timer := 0
    sound_timer := 0
    input := fun _ => false }

/-- Fresh machine with sound timer 1. -/
def soundOneMachine : Core.Chip8 := { Core.Chip8.new with sound_timer := 1 }

/-- Fresh machine whose first instruction is the call 0x2300. -/
def callMachine : Core.Chip8 :=
  { Core.Chip8.new with
      memory := memStore2 Core.Chip8.new.memory 0x200 0x23 0x201 0x00 }

/-- Machine as after the call of `callMachine` reached address 0x300: one
pending return address 0x200, about to execute 0x00EE. -/
def retMachine : Core.Chip8 :=
  { Core.Chip8.new with
      program_counter := 0x300
      stack_pointer := 1
      stack := fun i => if i = 0 then 0x200 else 0
      memory := memStore2 Core.Chip8.new.memory 0x300 0x00 0x301 0xEE }

/-! Small facts about `checked_pc_set` and `checked_pc_increment`: both
branches of the finish check leave the program counter at the requested
value and do not touch the stack or the stack pointer. -/

theorem core_checked_pc_set_pc (m : Core.Chip8) (v : Nat) :
    (Core.Chip8.checked_pc_set m v).1.program_counter = v := by
  simp only [Core.Chip8.checked_pc_set]
  split_ifs <;> rfl

theorem core_checked_pc_set_sp (m : Core.Chip8) (v : Nat) :
    (Core.Chip8.checked_pc_set m v).1.stack_pointer = m.stack_pointer := by
  simp only [Core.Chip8.checked_pc_set]
  split_ifs <;> rfl

theorem core_checked_pc_set_stack (m : Core.Chip8) (v : Nat) :
    (Core.Chip8.checked_pc_set m v).1.stack = m.stack := by
  simp only [Core.Chip8.checked_pc_set]
  split_ifs <;> rfl

theorem core_checked_pc_incr_pc (m : Core.Chip8) (v : Nat) :
    (Core.Chip8.checked_pc_increment m v).1.program_counter =
      m.program_counter + v := by
  unfold Core.Chip8.checked_pc_increment
  exact core_checked_pc_set_pc m _

theorem core_checked_pc_incr_sp (m : Core.Chip8) (v : Nat) :
    (Core.Chip8.checked_pc_increment m v).1.stack_pointer = m.stack_pointer := by
  unfold Core.Chip8.checked_pc_increment
  exact core_checked_pc_set_sp m _

theorem core_checked_pc_incr_stack (m : Core.Chip8) (v : Nat) :
    (Core.Chip8.checked_pc_increment m v).1.stack = m.stack := by
  unfold Core.Chip8.checked_pc_increment
  exact core_checked_pc_set_stack m _

/-- Dispatch fact: a call opcode `0x2NNN` executed with room on the stack
pushes the current program counter, moves the stack pointer up by one and
sets the program counter to NNN through `checked_pc_set`. -/
theorem core_exec_op_call (m : Core.Chip8) (nnn rand : Nat) (hnnn : nnn < 4096)
    (hpc : m.program_counter < 65536) (hsp : m.stack_pointer < 16) :
    Core.Chip8.exec_op m (0x2000 + nnn) rand =
      some (Core.Chip8.checked_pc_set
        { m with
            stack := fun i => if i = m.stack_pointer then m.program_counter else m.stack i
            stack_pointer := m.stack_pointer + 1 } nnn).1 := by
  have h1 : (0x2000 + nnn) / 4096 % 16 = 2 := by omega
  have h2 : (0x2000 + nnn) % 4096 = nnn := by omega
  simp [Core.Chip8.exec_op, nib1, nib2, nib3, nib4, h1, h2, Core.u16_of_usize,
    Core.Chip8.stack_push, hpc, hsp, Core.STACK_SIZE]

/-- Dispatch fact: the return opcode `0x00EE` executed with a nonempty stack
pops the top return address into the program counter through
`checked_pc_set`. -/
theorem core_exec_op_ret (m : Core.Chip8) (rand : Nat)
    (hnz : m.stack_pointer ≠ 0) (hlt : m.stack_pointer - 1 < 16) :
    Core.Chip8.exec_op m 0xEE rand =
      some (Core.Chip8.checked_pc_set
        { m with stack_pointer := m.stack_pointer - 1 }
        (m.stack (m.stack_pointer - 1))).1 := by
  simp [Core.Chip8.exec_op, nib1, nib2, nib3, nib4, Core.Chip8.stack_pop, hnz, hlt,
    Core.STACK_SIZE]

/-- C1: the display index computed by `coordinate_to_index` is
`64 * (x % 64) + (y % 32)`, not `(x % 64) + 64 * (y % 32)`: at x = 32,
y = 0 it is 2048, outside the 2048-element framebuffer, so `get_pixel`
panics there, and a DXYN draw with VX = 32 panics as well; at x = 1, y = 0
the index is 64 where the claimed formula gives 1. -/
theorem c1_screen_index_out_of_range :
    Core.Screen.coordinate_to_index 32 0 = 2048 ∧
    ¬ Core.Screen.coordinate_to_index 32 0 < 2048 ∧
    Core.Screen.get_pixel Core.Screen.new 32 0 = none ∧
    Core.Chip8.exec_op drawX32Machine 0xD011 0 = none ∧
    Core.Screen.coordinate_to_index 1 0 = 64 :=
  ⟨rfl, by decide, rfl, rfl, rfl⟩

/-- C2: the draw of core.rs overwrites each target pixel with the sprite
bit instead of XOR-ing it: with the pixel at (0, 0) on and an all-zero
sprite row, one DXYN turns it off, and a second identical DXYN leaves it
off, so the pre-draw framebuffer is not restored. -/
theorem c2_draw_overwrites_instead_of_xor :
    Core.Screen.get_pixel litPixelMachine.screen 0 0 = some true ∧
    ((Core.Chip8.exec_op litPixelMachine 0xD011 0).bind fun m1 =>
      Core.Screen.get_pixel m1.screen 0 0) = some false ∧
    ((Core.Chip8.exec_op litPixelMachine 0xD011 0).bind fun m1 =>
      (Core.Chip8.exec_op m1 0xD011 0).bind fun m2 =>
        Core.Screen.get_pixel m2.screen 0 0) = some false :=
  ⟨rfl, by decide, by decide⟩

/-- C3: after a DXYN of an all-zero sprite row onto a blank screen, core.rs
sets VF to 1 (no sprite bit was 1 and no pixel was on, so the claim
requires VF = 0): `set_pixel` reports whether the written value equals the
old one, and that report is accumulated as the collision flag. -/
theorem c3_draw_vf_wrong_condition :
    ((Core.Chip8.exec_op blankDrawMachine 0xD011 0).map fun m => m.v_regs 0xF) =
      some 1 := by decide

/-- C4: executing FX33 with VX = 123 and I = 0x300 leaves
memory[0x300] = 3, memory[0x301] = 0, memory[0x302] = 0: all three BCD
writes of core.rs target `memory[I]`, so the last (ones digit) wins and
the claimed bytes (1, 2, 3) are not written. -/
theorem c4_bcd_writes_alias :
    ((Core.Chip8.exec_op bcdMachine 0xF033 0).map fun m =>
      (m.memory 0x300, m.memory 0x301, m.memory 0x302)) = some (3, 0, 0) := by
  decide

/-- C7: a tick executing 0x1300 (jump to 0x300) from a fresh machine leaves
the program counter at 0x302, and a tick executing 0xB300 with V0 = 5
leaves it at 0x307: `tick` applies its unconditional `+ 2` increment after
`exec_op`, so neither jump lands exactly on its target. -/
theorem c7_jump_lands_past_target :
    ((Core.Chip8.tick jumpMachine 0).map fun p => p.1.program_counter) =
      some 0x302 ∧
    ((Core.Chip8.tick jumpV0Machine 0).map fun p => p.1.program_counter) =
      some 0x307 := by
  constructor
  · decide
  · decide

/-- C9: with the sound counter at 1, `tick_timers` returns `PlaySound` but
leaves the counter at 1 (the early return skips the decrement), and the
next call returns `PlaySound` again instead of exactly once. -/
theorem c9_sound_timer_never_reaches_zero :
    (Core.Chip8.tick_timers soundOneMachine).2 = Core.TimerState.PlaySound ∧
    (Core.Chip8.tick_timers soundOneMachine).1.sound_timer = 1 ∧
    (Core.Chip8.tick_timers (Core.Chip8.tick_timers soundOneMachine).1).2 =
      Core.TimerState.PlaySound :=
  ⟨rfl, rfl, rfl⟩

/-- C5 counterexample: a tick that executes the call 0x2300 with the stack
pointer at 16 panics (`none`), and a tick that executes 0x00EE with the
stack pointer at 0 panics as well; neither transitions to `Finished`. -/
theorem c5_stack_imbalance_panics_counterexample :
    Core.Chip8.tick fullStackCallMachine 0 = none ∧
    Core.Chip8.tick emptyStackRetMachine 0 = none :=
  ⟨rfl, rfl⟩

/-- C6 counterexample: opcode 0x0001 matches no arm of core.rs's dispatch,
and `exec_op` panics on it (`unimplemented!()`), so no `DecodeError` is
reported and execution cannot continue. -/
theorem c6_unknown_opcode_counterexample :
    Core.Chip8.exec_op Core.Chip8.new 0x0001 0 = none := rfl

/-- C10 counterexample: in core.rs's `new()`, memory[0x50] is 0 and
memory[0] is 0xF0: the 80 font bytes live at [0x000, 0x050), not at
[0x050, 0x0A0), and memory is not zero outside [0x050, 0x0A0). -/
theorem c10_font_location_counterexample :
    Core.Chip8.new.memory 0x50 = 0 ∧ Core.Chip8.new.memory 0x0 = 0xF0 :=
  ⟨rfl, rfl⟩

/-- C10 amended: `new()` of core.rs yields PC = 0x200 and zeroed registers,
I, stack, stack pointer, timers, keys and framebuffer, with the 80-byte
font at [0x000, 0x050) and memory zero elsewhere; `new()` of chip8_engine
additionally matches the claim's layout, holding the font at
[0x050, 0x0A0) with memory zero elsewhere. -/
theorem c10_new_machine_state :
    Core.Chip8.new.program_counter = 0x200 ∧
    Core.Chip8.new.i_reg = 0 ∧
    Core.Chip8.new.stack_pointer = 0 ∧
    Core.Chip8.new.delay_timer = 0 ∧
    Core.Chip8.new.sound_timer = 0 ∧
    Core.Chip8.new._finished = false ∧
    (∀ r, Core.Chip8.new.v_regs r = 0) ∧
    (∀ i, Core.Chip8.new.stack i = 0) ∧
    (∀ k, Core.Chip8.new.keys k = false) ∧
    (∀ p, Core.Chip8.new.screen.inner p = false) ∧
    (∀ a, Core.Chip8.new.memory a =
      if a < Core.FONTSET_SIZE then Core.FONTSET.getD a 0 else 0) ∧
    (Engine.Chip8.new.map fun e => e.program_counter) = some 0x200 ∧
    (Engine.Chip8.new.map fun e => e.i_reg) = some 0 ∧
    (Engine.Chip8.new.map fun e => e.stack_ptr) = some 0 ∧
    (Engine.Chip8.new.map fun e => e.delay_timer) = some 0 ∧
    (Engine.Chip8.new.map fun e => e.sound_timer) = some 0 ∧
    (∀ r, (Engine.Chip8.new.map fun e => e.v_regs r) = some 0) ∧
    (∀ i, (Engine.Chip8.new.map fun e => e.stack i) = some 0) ∧
    (∀ k, (Engine.Chip8.new.map fun e => e.input k) = some false) ∧
    (∀ p, (Engine.Chip8.new.map fun e => e.screen p) = some false) ∧
    (∀ a, (Engine.Chip8.new.map fun e => e.memory a) =
      some (if Engine.FONT_BEGIN_OFFSET ≤ a ∧
               a < Engine.FONT_BEGIN_OFFSET + Engine.FONT_SET.length then
              Engine.FONT_SET.getD (a - Engine.FONT_BEGIN_OFFSET) 0
            else 0)) :=
  ⟨rfl, rfl, rfl, rfl, rfl, rfl, fun _ => rfl, fun _ => rfl, fun _ => rfl,
   fun _ => rfl, fun _ => rfl, rfl, rfl, rfl, rfl, rfl, fun _ => rfl,
   fun _ => rfl, fun _ => rfl, fun _ => rfl, fun _ => rfl⟩

/-- C5 amended: executing a 2NNN call with the stack pointer at 16, or a
00EE return with the stack pointer at 0, makes `exec_op` panic (`none`,
an out-of-bounds stack index resp. a stack-pointer underflow); the machine
does not transition into the Finished state. -/
theorem c5_stack_imbalance_panics :
    (∀ (m : Core.Chip8) (nnn rand : Nat), nnn < 4096 → m.stack_pointer = 16 →
      Core.Chip8.exec_op m (0x2000 + nnn) rand = none) ∧
    (∀ (m : Core.Chip8) (rand : Nat), m.stack_pointer = 0 →
      Core.Chip8.exec_op m 0x00EE rand = none) := by
  constructor
  · intro m nnn rand hnnn hsp
    have h1 : (0x2000 + nnn) / 4096 % 16 = 2 := by omega
    simp [Core.Chip8.exec_op, nib1, nib2, nib3, nib4, h1, Core.u16_of_usize,
      Core.Chip8.stack_push, hsp, Core.STACK_SIZE]
  · intro m rand hsp
    simp [Core.Chip8.exec_op, nib1, nib2, nib3, nib4, Core.Chip8.stack_pop, hsp]

/-- C5 witness: the amended panic behavior at the call 0x2345 on a machine
with a full stack and at the return 0x00EE on a fresh machine. -/
theorem c5_stack_imbalance_panics_witness :
    Core.Chip8.exec_op fullStackMachine (0x2000 + 0x345) 0 = none ∧
    Core.Chip8.exec_op Core.Chip8.new 0x00EE 0 = none :=
  ⟨c5_stack_imbalance_panics.1 fullStackMachine 0x345 0 (by decide) rfl,
   c5_stack_imbalance_panics.2 Core.Chip8.new 0 rfl⟩

/-- Step fact for walking a dispatch chain: when an if-chain of booleans
whose positive branches are all `true` evaluates to `false`, its first
condition is false and the tail also evaluates to `false`. -/
theorem known_false_elim {c : Prop} [Decidable c] {b : Bool}
    (h : (if c then true else b) = false) : ¬c ∧ b = false := by
  by_cases hc : c
  · rw [if_pos hc] at h
    exact absurd h (by decide)
  · rw [if_neg hc] at h
    exact ⟨hc, h⟩

set_option maxHeartbeats 2000000 in
/-- C6 amended: a 16-bit opcode matching no arm of the dispatch hits the
wildcard: in core.rs `exec_op` panics (`unimplemented!()`), aborting the
step instead of reporting a decode error, while in chip8_engine
`execute_instruction` only logs the opcode and returns the machine state
unchanged, so later cycles can continue. -/
theorem c6_unknown_opcode_dispatch :
    (∀ (m : Core.Chip8) (op rand : Nat), Core.knownOp op = false →
      Core.Chip8.exec_op m op rand = none) ∧
    (∀ (e : Engine.Chip8) (opcode : Nat), Engine.knownOp opcode = false →
      Engine.Chip8.execute_instruction e opcode = some e) := by
  constructor
  · intro m op rand h
    unfold Core.knownOp at h
    unfold Core.Chip8.exec_op
    iterate 35
      obtain ⟨hc, h⟩ := known_false_elim h
      rw [if_neg hc]
  · intro e opcode h
    unfold Engine.knownOp at h
    unfold Engine.Chip8.execute_instruction
    iterate 33
      obtain ⟨hc, h⟩ := known_false_elim h
      rw [if_neg hc]

/-- C6 witness: opcode 0x8FF8 (an 0x8 arithmetic pattern with low nibble 8)
matches no arm in either implementation; core.rs panics on it and
chip8_engine leaves the zeroed machine unchanged. -/
theorem c6_unknown_opcode_dispatch_witness :
    Core.Chip8.exec_op Core.Chip8.new 0x8FF8 0 = none ∧
    Engine.Chip8.execute_instruction engineZero 0x8FF8 = some engineZero :=
  ⟨c6_unknown_opcode_dispatch.1 Core.Chip8.new 0x8FF8 0 (by decide),
   c6_unknown_opcode_dispatch.2 engineZero 0x8FF8 (by decide)⟩

/-- C8: from a running machine (not finished, PC fetchable) with call depth
below 16 whose next instruction is the call 2NNN, the call tick pushes the
call instruction's address and raises the stack pointer by one; any later
tick from a machine holding that stack frame (same depth, same top entry)
whose next instruction is 00EE leaves the program counter at the call
instruction's address + 2 — the instruction immediately after the call —
and restores the stack pointer to its pre-call depth. -/
theorem c8_call_ret_roundtrip (m : Core.Chip8) (nnn rand : Nat)
    (hfin : m._finished = false)
    (hpc : m.program_counter ≤ Core.RAM_SIZE - 2)
    (hsp : m.stack_pointer < 16)
    (hhi : m.memory m.program_counter = 0x20 + nnn / 256)
    (hlo : m.memory (m.program_counter + 1) = nnn % 256)
    (hnnn : nnn < 4096) :
    (∃ mc st, Core.Chip8.tick m rand = some (mc, st) ∧
      mc.stack_pointer = m.stack_pointer + 1 ∧
      mc.stack m.stack_pointer = m.program_counter) ∧
    (∀ (m2 : Core.Chip8) (rand2 : Nat),
      m2._finished = false →
      m2.program_counter ≤ Core.RAM_SIZE - 2 →
      m2.stack_pointer = m.stack_pointer + 1 →
      m2.stack m.stack_pointer = m.program_counter →
      m2.memory m2.program_counter = 0x00 →
      m2.memory (m2.program_counter + 1) = 0xEE →
      ∃ mr st, Core.Chip8.tick m2 rand2 = some (mr, st) ∧
        mr.program_counter = m.program_counter + 2 ∧
        mr.stack_pointer = m.stack_pointer) := by
  have hram : Core.RAM_SIZE = 4096 := rfl
  have hpc4 : m.program_counter ≤ 4094 := by
    have h := hpc
    rw [hram] at h
    omega
  constructor
  · have hguard : ¬(m._finished = true ∨ m.program_counter > Core.RAM_SIZE - 2) := by
      rintro (hx | hx)
      · rw [hfin] at hx
        exact absurd hx (by decide)
      · rw [hram] at hx
        omega
    have hr1 : Core.memRead m.memory m.program_counter = some (0x20 + nnn / 256) := by
      unfold Core.memRead
      rw [if_pos (by rw [hram]; omega), hhi]
    have hr2 : Core.memRead m.memory (m.program_counter + 1) = some (nnn % 256) := by
      unfold Core.memRead
      rw [if_pos (by rw [hram]; omega), hlo]
    unfold Core.Chip8.tick
    rw [if_neg hguard, hr1, Option.some_bind, hr2, Option.some_bind]
    have hop : (0x20 + nnn / 256) * 256 + nnn % 256 = 0x2000 + nnn := by omega
    rw [hop, core_exec_op_call m nnn rand hnnn (by omega) hsp, Option.some_bind]
    refine ⟨_, _, rfl, ?_, ?_⟩
    · rw [core_checked_pc_incr_sp, core_checked_pc_set_sp]
    · rw [core_checked_pc_incr_stack, core_checked_pc_set_stack]
      simp
  · intro m2 rand2 hfin2 hpc2 hsp2 hstk2 hb1 hb2
    have hpc24 : m2.program_counter ≤ 4094 := by
      have h := hpc2
      rw [hram] at h
      omega
    have hguard2 : ¬(m2._finished = true ∨ m2.program_counter > Core.RAM_SIZE - 2) := by
      rintro (hx | hx)
      · rw [hfin2] at hx
        exact absurd hx (by decide)
      · rw [hram] at hx
        omega
    have hr1 : Core.memRead m2.memory m2.program_counter = some 0x00 := by
      unfold Core.memRead
      rw [if_pos (by rw [hram]; omega), hb1]
    have hr2 : Core.memRead m2.memory (m2.program_counter + 1) = some 0xEE := by
      unfold Core.memRead
      rw [if_pos (by rw [hram]; omega), hb2]
    unfold Core.Chip8.tick
    rw [if_neg hguard2, hr1, Option.some_bind, hr2, Option.some_bind]
    have hop2 : (0x00 : Nat) * 256 + 0xEE = 0xEE := by norm_num
    rw [hop2, core_exec_op_ret m2 rand2 (by omega) (by omega), Option.some_bind]
    refine ⟨_, _, rfl, ?_, ?_⟩
    · rw [core_checked_pc_incr_pc, core_checked_pc_set_pc]
      have hidx : m2.stack_pointer - 1 = m.stack_pointer := by omega
      rw [hidx, hstk2]
    · rw [core_checked_pc_incr_sp, core_checked_pc_set_sp]
      show m2.stack_pointer - 1 = m.stack_pointer
      omega

/-- C8 witness: the call 0x2300 executed from a fresh machine pushes 0x200
with stack depth 1, and the matching 0x00EE executed from `retMachine`
brings the program counter to 0x202 (the instruction after the call) with
the stack pointer back at 0. -/
theorem c8_call_ret_roundtrip_witness :
    (∃ mc st, Core.Chip8.tick callMachine 0 = some (mc, st) ∧
      mc.stack_pointer = callMachine.stack_pointer + 1 ∧
      mc.stack callMachine.stack_pointer = callMachine.program_counter) ∧
    (∃ mr st, Core.Chip8.tick retMachine 0 = some (mr, st) ∧
      mr.program_counter = callMachine.program_counter + 2 ∧
      mr.stack_pointer = callMachine.stack_pointer) := by
  have h := c8_call_ret_roundtrip callMachine 0x300 0 rfl (by decide) (by decide)
    (by decide) (by decide) (by decide)
  exact ⟨h.1, h.2 retMachine 0 rfl (by decide) (by decide) (by decide)
    (by decide) (by decide)⟩
